import Mathlib

/-!
Shallow embedding of `src/lam_qa_agent_ui.py` (AutoPilot QA minimal web UI).

The embedding keeps the source structure: `parse_fields`, `validate_fields`,
`run_pipeline`, the POST/GET handler with its module-level last-result state,
`write_static_ui`, `run_once_from_env` and `main`.  The external engine
(`lam_qa_agent.run_autopilot_qa`) is outside the repository; it is modelled as
a behaviour value covering the four ways the Python code can observe it: a
failed import, success, `ModuleNotFoundError`, or any other exception.
File writes and HTML rendering are captured as data: `render_page` is a pure
function of its nine arguments, so a page is modelled as the record of those
arguments.
-/

set_option maxRecDepth 8192

namespace AutoPilotQA

/-- Python whitespace characters recognised by `str.strip` on ASCII input. -/
def pyIsSpace (c : Char) : Bool :=
  c = ' ' || c = '\t' || c = '\n' || c = '\r' || c = '\x0b' || c = '\x0c'

/-- Python `str.strip()` (ASCII scope): drop leading and trailing whitespace. -/
def pyStrip (s : String) : String :=
  String.mk (((s.data.dropWhile pyIsSpace).reverse.dropWhile pyIsSpace).reverse)

/-- Decimal digit test. -/
def isDigitChar (c : Char) : Bool := '0' ≤ c && c ≤ '9'

/-- Tail of a Python int literal digit part, right after a digit has been
seen: an underscore must be followed by a digit, and the part must end in a
digit. -/
def digitPartAux : List Char → Bool
  | [] => true
  | '_' :: [] => false
  | '_' :: c :: rest => isDigitChar c && digitPartAux rest
  | c :: rest => isDigitChar c && digitPartAux rest

/-- A valid Python int digit part: nonempty, starts with a digit, single
underscores only between digits. -/
def digitPart : List Char → Bool
  | [] => false
  | c :: rest => isDigitChar c && digitPartAux rest

/-- Numeric value of a digit list, ignoring grouping underscores. -/
def digitsVal (cs : List Char) : Nat :=
  (cs.filter (fun c => c ≠ '_')).foldl (fun a c => a * 10 + (c.toNat - 48)) 0

/-- Python `int(s)` on an ASCII string: optional surrounding whitespace,
optional sign, then a digit part with optional grouping underscores.
Returns `none` where Python raises `ValueError`. -/
def pythonInt (s : String) : Option Int :=
  let cs := ((s.data.dropWhile pyIsSpace).reverse.dropWhile pyIsSpace).reverse
  match cs with
  | '+' :: rest => if digitPart rest then some (Int.ofNat (digitsVal rest)) else none
  | '-' :: rest => if digitPart rest then some (-(Int.ofNat (digitsVal rest))) else none
  | rest => if digitPart rest then some (Int.ofNat (digitsVal rest)) else none

/-- Python `html.escape` with its default quoting. -/
def htmlEscape (s : String) : String :=
  String.mk (s.data.flatMap (fun c =>
    if c = '&' then "&amp;".data
    else if c = '<' then "&lt;".data
    else if c = '>' then "&gt;".data
    else if c = '"' then "&quot;".data
    else if c = '\'' then "&#x27;".data
    else [c]))

/-! ### Form data

`parse_qs` produces a dict from field name to a nonempty list of values.
We model it as an association list (Python dict keys are unique, so lookup
of the first matching key is faithful).  `parse_qs` never produces an empty
value list; `WFQuery` records that, and theorems about the handler assume it
because Python would raise `IndexError` on `values[0]` otherwise. -/

abbrev Query := List (String × List String)

/-- Well-formedness guaranteed by `urllib.parse.parse_qs`: every value list
is nonempty. -/
def WFQuery (qs : Query) : Prop := ∀ p ∈ qs, p.2 ≠ ([] : List String)

instance (qs : Query) : Decidable (WFQuery qs) := by
  unfold WFQuery; infer_instance

/-- Python `k in qs` on the dict. -/
def qsHas (qs : Query) (k : String) : Bool := (qs.lookup k).isSome

/-- Python `qs.get(k, [d])[0]`: first value of the key, or the default when
the key is absent.  The empty-value-list case cannot arise under `WFQuery`
(Python would raise `IndexError` there); it is mapped to the default. -/
def qsFirst (qs : Query) (k : String) (d : String) : String :=
  match qs.lookup k with
  | none => d
  | some vs => (vs.head?).getD d

/-- Python `(qs.get(k, [d])[0] or d)`: additionally falls back to the default
when the first value is the empty string (falsy). -/
def qsGetOr (qs : Query) (k : String) (d : String) : String :=
  let v := qsFirst qs k d
  if v = "" then d else v

/-! ### RunRequest (the `fields` dict) -/

/-- The normalized `fields` dict built by `parse_fields` and
`run_once_from_env`. -/
structure Fields where
  url : String
  api_key : String
  num_tests : Option Int
  headless : Bool
  prd_text : String
  deriving Repr, DecidableEq

/-- Error message raised for a bad test count in `parse_fields`. -/
def numTestsErrMsg : String := "Number of tests must be a positive integer if provided."

/-- The stripped raw test-count field (`num_tests_raw` in `parse_fields`). -/
def numTestsRaw (qs : Query) : String := pyStrip (qsGetOr qs "num_tests" "")

/-- `parse_fields(qs)`: normalize form fields from the query dict.  Scalar
fields take the first value (default empty string) and are stripped; the
headless checkbox is true only when the key is present with first value in
{on, true, 1}; a nonempty test-count string must parse as an integer that is
at least 1, else `ValueError` (modelled as `Except.error` with the message). -/
def parse_fields (qs : Query) : Except String Fields :=
  let url := pyStrip (qsGetOr qs "url" "")
  let api_key := pyStrip (qsGetOr qs "api_key" "")
  let num_tests_raw := numTestsRaw qs
  let headless := qsHas qs "headless" && (qsFirst qs "headless" "on" ∈ (["on", "true", "1"] : List String))
  let prd_text := pyStrip (qsGetOr qs "prd_text" "")
  if num_tests_raw = "" then
    .ok { url := url, api_key := api_key, num_tests := none, headless := headless, prd_text := prd_text }
  else
    match pythonInt num_tests_raw with
    | none => .error numTestsErrMsg
    | some n =>
      if n < 1 then .error numTestsErrMsg
      else .ok { url := url, api_key := api_key, num_tests := some n, headless := headless, prd_text := prd_text }

/-- Error messages appended by `validate_fields`, in source order. -/
def apiKeyErrMsg : String := "Anthropic API Key is required."

/-- Error message for a missing application URL. -/
def urlErrMsg : String := "Application URL is required."

/-- Error message for missing PRD text. -/
def prdErrMsg : String := "PRD text is required."

/-- `validate_fields(fields)`: one named error per empty required field, in
the order api_key, url, prd_text. -/
def validate_fields (f : Fields) : List String :=
  (if f.api_key = "" then [apiKeyErrMsg] else []) ++
  (if f.url = "" then [urlErrMsg] else []) ++
  (if f.prd_text = "" then [prdErrMsg] else [])

/-! ### Pipeline bridge

`run_pipeline` lazily imports `lam_qa_agent.run_autopilot_qa` and calls it.
The engine is not part of this repository, so its observable behaviour is a
value: the import may fail, or the call may succeed with a summary, a
structured result and logged messages, raise `ModuleNotFoundError`, or raise
any other exception (carrying the messages logged before the failure). -/

/-- Decimal digits with explicit fuel (structural recursion, `n + 1` fuel is
always enough since the argument shrinks by a factor of ten). -/
def natDecimalCharsAux : Nat → Nat → List Char
  | 0, _ => []
  | fuel + 1, n =>
    if n < 10 then [Char.ofNat (48 + n)]
    else natDecimalCharsAux fuel (n / 10) ++ [Char.ofNat (48 + n % 10)]

/-- Decimal digits of a natural number, most significant first. -/
def natDecimalChars (n : Nat) : List Char := natDecimalCharsAux (n + 1) n

/-- Decimal rendering of a natural number. -/
def natDecimal (n : Nat) : String := String.mk (natDecimalChars n)

/-- Decimal rendering of an integer (how `json.dumps` prints an int). -/
def intRepr : Int → String
  | .ofNat m => natDecimal m
  | .negSucc m => "-" ++ natDecimal (m + 1)

/-- Structured documents produced by the engine (the `results` value handed
to `json.dumps`). -/
inductive Json where
  | null
  | bool (b : Bool)
  | num (n : Int)
  | str (s : String)
  | arr (xs : List Json)
  | obj (fs : List (String × Json))
  deriving Repr

mutual

/-- Serialization of a structured result for transport (`json.dumps`). -/
def jsonDumps : Json → String
  | .null => "null"
  | .bool true => "true"
  | .bool false => "false"
  | .num n => intRepr n
  | .str s => "\"" ++ s ++ "\""
  | .arr xs => "[" ++ jsonDumpsList xs ++ "]"
  | .obj fs => "\x7b" ++ jsonDumpsObj fs ++ "\x7d"

/-- Comma-joined serialization of array elements. -/
def jsonDumpsList : List Json → String
  | [] => ""
  | [x] => jsonDumps x
  | x :: xs => jsonDumps x ++ ", " ++ jsonDumpsList xs

/-- Comma-joined serialization of object members. -/
def jsonDumpsObj : List (String × Json) → String
  | [] => ""
  | [(k, v)] => "\"" ++ k ++ "\": " ++ jsonDumps v
  | (k, v) :: fs => "\"" ++ k ++ "\": " ++ jsonDumps v ++ ", " ++ jsonDumpsObj fs

end

/-- Observable behaviour of the external engine for one invocation. -/
inductive EngineBehavior where
  | importError (msg : String)
  | success (summary : String) (results : Json) (logs : List String)
  | moduleNotFound (msg : String) (logs : List String)
  | otherError (msg : String) (logs : List String)
  deriving Repr

/-- An engine model: behaviour as a function of the validated fields. -/
abbrev Engine := Fields → EngineBehavior

/-- The `(summary_md, results_json, logs)` triple returned by `run_pipeline`. -/
structure RunOutcome where
  summary_md : String
  results_json : Option String
  logs : List String
  deriving Repr, DecidableEq

/-- Guidance text rendered when the engine module cannot be imported. -/
def importGuidance : String :=
  "Could not import lam_qa_agent. Ensure the file exists alongside app.py.\n" ++
  "Install required packages in your environment: \n" ++
  "  pip install anthropic playwright\n  python -m playwright install\n"

/-- Remediation tail shared by the import-failure and missing-dependency
summaries. -/
def remediationText : String :=
  "pip install anthropic playwright\n  python -m playwright install\n"

/-- `run_pipeline(fields)`: run the AutoPilot QA pipeline, catching every
engine failure and turning it into a diagnostic `RunOutcome`.  On import
failure the log list is still empty; on an exception during the run the
messages logged so far are returned. -/
def run_pipeline (engine : Engine) (fields : Fields) : RunOutcome :=
  match engine fields with
  | .importError e =>
    { summary_md := "**Import error:** " ++ e ++ "\n\n" ++ importGuidance
      results_json := none
      logs := [] }
  | .success summary results logs =>
    { summary_md := summary, results_json := some (jsonDumps results), logs := logs }
  | .moduleNotFound e logs =>
    { summary_md :=
        "**Dependency missing:** " ++ e ++ ".\n\n" ++
        "Please install dependencies: \n" ++
        "  pip install anthropic playwright\n  python -m playwright install\n"
      results_json := none
      logs := logs }
  | .otherError e logs =>
    { summary_md := "**Run failed:** " ++ e, results_json := none, logs := logs }

/-! ### Rendering and the HTTP handler

`render_page` is a pure function of nine arguments; the page it renders is
modelled as the record of those arguments (its HTML skeleton is constant, so
the record determines the document).  `None` for the validation list and the
log list behaves like the empty list in `render_page`, and is modelled so. -/

/-- The arguments handed to `render_page` for one response document. -/
structure Page where
  url : String
  api_key : String
  num_tests : String
  headless : Bool
  prd_text : String
  validation : List String
  status : String
  logs : List String
  summary_md : Option String
  deriving Repr, DecidableEq

/-- The default page rendered by `render_page()` with no arguments
(GET of any path other than the results endpoint). -/
def defaultPage : Page :=
  { url := "", api_key := "", num_tests := "3", headless := true, prd_text := ""
    validation := [], status := "Idle", logs := [], summary_md := none }

/-- Body of an HTTP response: a rendered HTML page or a JSON document. -/
inductive Body where
  | page (p : Page)
  | json (s : String)
  deriving Repr, DecidableEq

/-- An HTTP response: status code and body. -/
structure Response where
  status : Nat
  body : Body
  deriving Repr, DecidableEq

/-- The module-level last-run cache (`LAST_RESULTS_JSON`, `LAST_SUMMARY_MD`,
`LAST_LOGS`). -/
structure ServerState where
  lastResultsJson : Option String
  lastSummaryMd : Option String
  lastLogs : List String
  deriving Repr, DecidableEq

/-- State at process start: both caches `None`, no logs. -/
def initialState : ServerState :=
  { lastResultsJson := none, lastSummaryMd := none, lastLogs := [] }

/-- The path component of an origin-form request target, as
`urlparse(self.path).path`: the part before any query string or fragment. -/
def urlPath (target : String) : String :=
  String.mk (target.data.takeWhile (fun c => c ≠ '?' && c ≠ '#'))

/-- Python `(LAST_RESULTS_JSON or "\x7b\x7d")`: the stored document unless it
is `None` or the empty string (falsy). -/
def resultsDoc (st : ServerState) : String :=
  match st.lastResultsJson with
  | none => "\x7b\x7d"
  | some s => if s = "" then "\x7b\x7d" else s

/-- `do_GET`: the results endpoint returns the cached raw results document
(or an empty JSON object) with status 200; every other path renders the
default page with status 200. -/
def do_GET (st : ServerState) (target : String) : Response :=
  if urlPath target = "/results.json" then
    { status := 200, body := .json (resultsDoc st) }
  else
    { status := 200, body := .page defaultPage }

/-- Result of one `do_POST` call: the new module state, whether the pipeline
was invoked, and the response sent. -/
structure PostResult where
  state : ServerState
  invoked : Bool
  resp : Response
  deriving Repr, DecidableEq

/-- Echo string for the parsed test count
(`str(fields["num_tests"]) if fields["num_tests"] else ""`); the parsed
count is never 0, so Python truthiness coincides with presence here. -/
def numTestsEcho (f : Fields) : String :=
  match f.num_tests with
  | none => ""
  | some n => if n = 0 then "" else toString n

/-- `do_POST`: parse the form body; on `ValueError` render the single parse
error with status 400 and leave the cache untouched; on validation errors
render them with status 400 and leave the cache untouched; otherwise run the
pipeline, overwrite the cache with its outcome, and respond 200 with status
label Completed when `results_json` is truthy, else Completed with errors. -/
def do_POST (engine : Engine) (st : ServerState) (qs : Query) : PostResult :=
  match parse_fields qs with
  | .error ve =>
    { state := st
      invoked := false
      resp :=
        { status := 400
          body := .page
            { url := qsFirst qs "url" ""
              api_key := qsFirst qs "api_key" ""
              num_tests := qsFirst qs "num_tests" ""
              headless := qsHas qs "headless"
              prd_text := qsFirst qs "prd_text" ""
              validation := [ve]
              status := "Validation error"
              logs := []
              summary_md := st.lastSummaryMd } } }
  | .ok fields =>
    let validation := validate_fields fields
    if validation ≠ [] then
      { state := st
        invoked := false
        resp :=
          { status := 400
            body := .page
              { url := fields.url
                api_key := fields.api_key
                num_tests := numTestsEcho fields
                headless := fields.headless
                prd_text := fields.prd_text
                validation := validation
                status := "Validation error"
                logs := []
                summary_md := st.lastSummaryMd } } }
    else
      let o := run_pipeline engine fields
      let st' : ServerState :=
        { lastResultsJson := o.results_json
          lastSummaryMd := some o.summary_md
          lastLogs := o.logs }
      let status_text :=
        match o.results_json with
        | none => "Completed with errors"
        | some s => if s = "" then "Completed with errors" else "Completed"
      { state := st'
        invoked := true
        resp :=
          { status := 200
            body := .page
              { url := fields.url
                api_key := fields.api_key
                num_tests := numTestsEcho fields
                headless := fields.headless
                prd_text := fields.prd_text
                validation := []
                status := status_text
                logs := o.logs
                summary_md := some o.summary_md } } }

/-- Server states reachable from process start through completed POST
requests (the only writers of the module-level cache). -/
inductive Reachable : ServerState → Prop where
  | init : Reachable initialState
  | post (engine : Engine) (qs : Query) {st : ServerState} :
      Reachable st → Reachable (do_POST engine st qs).state

/-! ### Fallback utilities, one-shot mode, and `main`

The process environment is a partial map from variable name to value.  File
writes are captured as `(path, content)` data in the traces.  The listening
socket is external state: `main` takes the outcome the `HTTPServer`
constructor would have, and an `OSError` is its `errno` (if any) plus its
string rendering. -/

/-- The process environment (`os.environ`). -/
abbrev Env := String → Option String

/-- `APQA_UI_OUT` with its default. -/
def uiOutPath (env : Env) : String :=
  (env "APQA_UI_OUT").getD "/mnt/data/autopilot_qa_ui.html"

/-- `APQA_REPORT_HTML` with its default. -/
def reportHtmlPath (env : Env) : String :=
  (env "APQA_REPORT_HTML").getD "/mnt/data/autopilot_qa_report.html"

/-- `APQA_RESULTS_JSON` with its default. -/
def resultsJsonPath (env : Env) : String :=
  (env "APQA_RESULTS_JSON").getD "/mnt/data/autopilot_qa_results.json"

/-- The static page written by `write_static_ui`: the fixed arguments it
hands to `render_page`. -/
def staticUiPage : Page :=
  { url := "", api_key := "", num_tests := "", headless := true, prd_text := ""
    validation :=
      ["Networking is not available in this environment. This static page mirrors the UI layout.\n\n" ++
       "To execute a single run without a server, set environment variables and re-run:\n\n" ++
       "APQA_URL, APQA_API_KEY, APQA_PRD_TEXT, optional APQA_NUM_TESTS, APQA_HEADLESS=0/1, APQA_RUN_ONCE=1\n"]
    status := "Offline fallback page"
    logs := ["Server disabled: wrote static UI."]
    summary_md := some "(no summary — run once via env vars to generate a report)" }

/-- The `fields` dict built by `run_once_from_env` from environment
variables: strings are stripped, `APQA_HEADLESS` defaults to "1" with truthy
set (1, true, on, True), and `APQA_NUM_TESTS` is kept only when it parses as
an integer (a `ValueError` is printed and ignored, leaving `None`). -/
def oneShotFields (env : Env) : Fields :=
  let base : Fields :=
    { url := pyStrip ((env "APQA_URL").getD "")
      api_key := pyStrip ((env "APQA_API_KEY").getD "")
      prd_text := pyStrip ((env "APQA_PRD_TEXT").getD "")
      headless := ((env "APQA_HEADLESS").getD "1") ∈ (["1", "true", "on", "True"] : List String)
      num_tests := none }
  let nt := pyStrip ((env "APQA_NUM_TESTS").getD "")
  if nt = "" then base
  else
    match pythonInt nt with
    | some n => { base with num_tests := some n }
    | none => base

/-- Effects of one invocation of `run_once_from_env` that got past the
`APQA_RUN_ONCE` guard. -/
structure OneShotTrace where
  fields : Fields
  ran : Bool
  reportWrite : Option (String × String)
  resultsWrite : Option (String × String)
  deriving Repr, DecidableEq

/-- `run_once_from_env()`: `None` unless `APQA_RUN_ONCE` is "1"; exit code 2
when validation of the env-built fields fails; otherwise run the pipeline
once, write the report (and the results file when `results_json` is truthy)
and return exit code 0. -/
def run_once_from_env (engine : Engine) (env : Env) : Option (Int × OneShotTrace) :=
  if env "APQA_RUN_ONCE" ≠ some "1" then none
  else
    let fields := oneShotFields env
    let errs := validate_fields fields
    if errs ≠ [] then
      some (2, { fields := fields, ran := false, reportWrite := none, resultsWrite := none })
    else
      let o := run_pipeline engine fields
      some (0,
        { fields := fields
          ran := true
          reportWrite := some (reportHtmlPath env, "<pre>" ++ htmlEscape o.summary_md ++ "</pre>")
          resultsWrite :=
            match o.results_json with
            | none => none
            | some s => if s = "" then none else some (resultsJsonPath env, s) })

/-- An `OSError` as the fallback logic observes it: its `errno` attribute
(when set) and its string rendering. -/
structure OSErr where
  errno : Option Int
  msg : String
  deriving Repr, DecidableEq

/-- Python `sub in hay` on strings. -/
def pyInStr (sub hay : String) : Bool :=
  hay.data.tails.any (fun t => sub.data.isPrefixOf t)

/-- The fallback guard of `main`: `errno` is `EOPNOTSUPP` (95 on Linux) or
138, or the message contains "Not supported". -/
def isUnsupported (e : OSErr) : Bool :=
  e.errno == some 95 || e.errno == some 138 || pyInStr "Not supported" e.msg

/-- Outcome of constructing the `HTTPServer` (binding the listener). -/
inductive BindOutcome where
  | ok
  | err (e : OSErr)

/-- How `main` terminates. -/
inductive MainOutcome where
  | exited (code : Int)
  | raised (e : OSErr)
  | serving
  deriving Repr, DecidableEq

/-- Observable trace of one `main` invocation. -/
structure MainTrace where
  outcome : MainOutcome
  staticUiWrite : Option (String × Page)
  oneShot : Option OneShotTrace
  deriving Repr, DecidableEq

/-! ### The embedded test suite (`FormTests`) -/

/-- Query dict of `test_parse_fields_ok_blank_tests`. -/
def testQsBlank : Query :=
  [("url", ["https://example.com"]), ("api_key", ["sk-ant-123"]),
   ("prd_text", ["Feature A"]), ("headless", ["on"]), ("num_tests", [""])]

/-- `test_parse_fields_ok_blank_tests`: blank test count means run all. -/
def test_parse_fields_ok_blank_tests : Bool :=
  match parse_fields testQsBlank with
  | .ok f =>
    f.url == "https://example.com" && f.api_key == "sk-ant-123" &&
    f.num_tests == none && f.headless && f.prd_text == "Feature A"
  | .error _ => false

/-- `test_parse_fields_bad_num_tests`: a non-numeric test count raises. -/
def test_parse_fields_bad_num_tests : Bool :=
  match parse_fields [("url", ["u"]), ("api_key", ["k"]), ("prd_text", ["p"]), ("num_tests", ["zero"])] with
  | .ok _ => false
  | .error _ => true

/-- `test_validate_fields`: all three required-field messages appear. -/
def test_validate_fields : Bool :=
  let errs := validate_fields
    { url := "", api_key := "", prd_text := "", num_tests := none, headless := false }
  errs.contains apiKeyErrMsg && errs.contains urlErrMsg && errs.contains prdErrMsg

/-- `test_headless_checkbox_absent_defaults_false`. -/
def test_headless_checkbox_absent_defaults_false : Bool :=
  match parse_fields [("url", ["https://example.com"]), ("api_key", ["key"]), ("prd_text", ["p"])] with
  | .ok f => !f.headless
  | .error _ => false

/-- `test_num_tests_positive`: "5" parses to 5. -/
def test_num_tests_positive : Bool :=
  match parse_fields [("url", ["https://example.com"]), ("api_key", ["key"]), ("prd_text", ["p"]), ("num_tests", ["5"])] with
  | .ok f => f.num_tests == some 5
  | .error _ => false

/-- `test_validate_fields_ok`: all present means no errors. -/
def test_validate_fields_ok : Bool :=
  validate_fields { url := "https://x", api_key := "k", prd_text := "p", num_tests := none, headless := false } == []

/-- `result.wasSuccessful()` for the embedded `FormTests` suite. -/
def testsPass : Bool :=
  test_parse_fields_ok_blank_tests && test_parse_fields_bad_num_tests &&
  test_validate_fields && test_headless_checkbox_absent_defaults_false &&
  test_num_tests_positive && test_validate_fields_ok

/-- `main()`: run the embedded suite when `RUN_TESTS` is "1" (exit 0 on
success, 1 on failure); otherwise do a one-shot run and exit with its code
when configured; otherwise bind the server.  A bind `OSError` classified as
"listener unsupported" writes the static UI and exits 0; any other bind
fault propagates. -/
def main (engine : Engine) (env : Env) (bind : BindOutcome) : MainTrace :=
  if env "RUN_TESTS" = some "1" then
    { outcome := .exited (if testsPass then 0 else 1), staticUiWrite := none, oneShot := none }
  else
    match run_once_from_env engine env with
    | some (rc, tr) =>
      { outcome := .exited rc, staticUiWrite := none, oneShot := some tr }
    | none =>
      match bind with
      | .ok => { outcome := .serving, staticUiWrite := none, oneShot := none }
      | .err e =>
        if isUnsupported e then
          { outcome := .exited 0, staticUiWrite := some (uiOutPath env, staticUiPage), oneShot := none }
        else
          { outcome := .raised e, staticUiWrite := none, oneShot := none }

/-! ### Helper lemmas -/

/-- A string with a nonempty left part is nonempty. -/
theorem append_ne_empty_left (p q : String) (h : p ≠ "") : p ++ q ≠ "" := by
  intro hc
  apply h
  have hd := congrArg String.data hc
  simp at hd
  exact String.ext hd.1

/-- The decimal digit list is never empty. -/
theorem natDecimalChars_ne_nil (n : Nat) : natDecimalChars n ≠ [] := by
  unfold natDecimalChars natDecimalCharsAux
  split <;> simp

/-- Decimal rendering of a natural number is never the empty string. -/
theorem natDecimal_ne_empty (n : Nat) : natDecimal n ≠ "" := by
  intro hc
  have hd := congrArg String.data hc
  simp [natDecimal] at hd
  exact natDecimalChars_ne_nil n hd

/-- Decimal rendering of an integer is never the empty string. -/
theorem intRepr_ne_empty (n : Int) : intRepr n ≠ "" := by
  cases n with
  | ofNat m => exact natDecimal_ne_empty m
  | negSucc m => exact append_ne_empty_left "-" _ (by decide)

/-- Serialized structured results are never the empty string. -/
theorem jsonDumps_ne_empty (j : Json) : jsonDumps j ≠ "" := by
  cases j with
  | null => decide
  | bool b => cases b <;> decide
  | num n => exact intRepr_ne_empty n
  | str s => exact append_ne_empty_left _ _ (append_ne_empty_left "\"" s (by decide))
  | arr xs => exact append_ne_empty_left _ _ (append_ne_empty_left "[" _ (by decide))
  | obj fs => exact append_ne_empty_left _ _ (append_ne_empty_left "\x7b" _ (by decide))

/-- `run_pipeline` never caches an empty results document: the field is
either absent or a serialized structured result. -/
theorem run_pipeline_results_ne_some_empty (engine : Engine) (f : Fields) :
    (run_pipeline engine f).results_json ≠ some "" := by
  unfold run_pipeline
  cases h : engine f <;> simp
  case success s r lg => exact jsonDumps_ne_empty r

/-! ### Claims -/

/-- C4: `parse_fields` fails with an `InvalidInput` error carrying a
human-readable message if and only if the test-count field value is nonempty
after trim and not parseable as a positive integer; an empty test-count
string yields `requested_test_count = none`, and a positive integer string
yields that integer. -/
theorem c4_parse_fields_test_count (qs : Query) (hwf : WFQuery qs) :
    ((∃ m, parse_fields qs = .error m) ↔
      numTestsRaw qs ≠ "" ∧ ¬∃ n : Int, pythonInt (numTestsRaw qs) = some n ∧ 1 ≤ n) ∧
    (∀ m, parse_fields qs = .error m → m = numTestsErrMsg ∧ m ≠ "") ∧
    (numTestsRaw qs = "" → ∃ f, parse_fields qs = .ok f ∧ f.num_tests = none) ∧
    (∀ n : Int, pythonInt (numTestsRaw qs) = some n → 1 ≤ n →
      ∃ f, parse_fields qs = .ok f ∧ f.num_tests = some n) := by
  have hmsg : numTestsErrMsg ≠ "" := by decide
  unfold parse_fields
  by_cases h0 : numTestsRaw qs = ""
  · simp [h0]
    intro n hn
    rw [show pythonInt "" = (none : Option Int) from by decide] at hn
    exact Option.noConfusion hn
  · simp only [h0, if_false]
    cases hp : pythonInt (numTestsRaw qs) with
    | none => simp [h0, hmsg]
    | some n =>
      by_cases hn : n < 1
      · simp [h0, hn, hmsg]
      · simp [h0, hn]

/-- C4 witness: a blank count parses to `none`, "5" parses to 5, and "zero"
raises the positive-integer error. -/
theorem c4_parse_fields_test_count_witness :
    (parse_fields [("url", ["u"]), ("api_key", ["k"]), ("prd_text", ["p"]), ("num_tests", ["zero"])]
      = .error numTestsErrMsg) ∧
    numTestsErrMsg ≠ "" := by
  have h := c4_parse_fields_test_count
    [("url", ["u"]), ("api_key", ["k"]), ("prd_text", ["p"]), ("num_tests", ["zero"])]
    (by decide)
  have he : parse_fields [("url", ["u"]), ("api_key", ["k"]), ("prd_text", ["p"]), ("num_tests", ["zero"])]
      = .error numTestsErrMsg := rfl
  exact ⟨he, (h.2.1 numTestsErrMsg he).2⟩

/-- C5: `validate_fields` appends exactly one named error message per empty
required field, in the fixed order api_key (credential), url (target_url),
prd_text (requirements_text); it returns the empty list exactly when all
three are nonempty, and no other field contributes errors (the output is a
subsequence of the three fixed messages, membership determined by the three
fields alone). -/
theorem c5_validate_fields_required (f : Fields) :
    List.Sublist (validate_fields f) [apiKeyErrMsg, urlErrMsg, prdErrMsg] ∧
    (apiKeyErrMsg ∈ validate_fields f ↔ f.api_key = "") ∧
    (urlErrMsg ∈ validate_fields f ↔ f.url = "") ∧
    (prdErrMsg ∈ validate_fields f ↔ f.prd_text = "") ∧
    (validate_fields f).length =
      (if f.api_key = "" then 1 else 0) + (if f.url = "" then 1 else 0) +
      (if f.prd_text = "" then 1 else 0) ∧
    (validate_fields f = [] ↔ f.api_key ≠ "" ∧ f.url ≠ "" ∧ f.prd_text ≠ "") := by
  unfold validate_fields
  by_cases h1 : f.api_key = "" <;> by_cases h2 : f.url = "" <;> by_cases h3 : f.prd_text = "" <;>
    simp [h1, h2, h3] <;> decide

/-- C5 witness: three empty required fields produce exactly three errors,
and a complete request produces none. -/
theorem c5_validate_fields_required_witness :
    (validate_fields
      { url := "", api_key := "", num_tests := none, headless := false, prd_text := "" }).length = 3 ∧
    validate_fields
      { url := "https://x", api_key := "k", num_tests := none, headless := false, prd_text := "p" }
      = [] := by
  constructor
  · have h := (c5_validate_fields_required
      { url := "", api_key := "", num_tests := none, headless := false, prd_text := "" }).2.2.2.2.1
    simpa using h
  · exact (c5_validate_fields_required
      { url := "https://x", api_key := "k", num_tests := none, headless := false, prd_text := "p" }).2.2.2.2.2.mpr
      ⟨by decide, by decide, by decide⟩

/-- C7 counterexample: with a one-shot run configured through environment
variables and all required fields present, `APQA_NUM_TESTS="-3"` produces a
constructed RunRequest whose requested test count is present and negative,
violating the positivity invariant. -/
def envC7 : Env := fun k =>
  List.lookup k
    [("APQA_RUN_ONCE", "1"), ("APQA_URL", "https://staging.example.com"),
     ("APQA_API_KEY", "sk-ant-x"), ("APQA_PRD_TEXT", "Feature A"),
     ("APQA_NUM_TESTS", "-3")]

/-- C7: refuted as stated — `run_once_from_env` builds a RunRequest with
`requested_test_count = -3` from `APQA_NUM_TESTS="-3"`, and that request
passes validation and is handed to the pipeline. -/
theorem c7_counterexample :
    (oneShotFields envC7).num_tests = some (-3) ∧ ¬(1 ≤ (-3 : Int)) ∧
    envC7 "APQA_RUN_ONCE" = some "1" ∧
    validate_fields (oneShotFields envC7) = [] := by
  refine ⟨by decide, by decide, rfl, by decide⟩

/-- C1: for every validated RunRequest and every engine behaviour,
`run_pipeline` returns a RunOutcome (it is a total function of the observed
behaviour, so no fault propagates); in each failure case `results_json` is
absent and the summary is a nonempty diagnostic, and in the load-failure and
missing-dependency cases the summary ends with the remediation guidance. -/
theorem c1_run_pipeline_failure_contract (engine : Engine) (f : Fields) :
    match engine f with
    | .success _ r lg =>
        (run_pipeline engine f).results_json = some (jsonDumps r) ∧
        (run_pipeline engine f).logs = lg
    | .importError _ =>
        (run_pipeline engine f).results_json = none ∧
        (run_pipeline engine f).summary_md ≠ "" ∧
        ∃ a, (run_pipeline engine f).summary_md = a ++ remediationText
    | .moduleNotFound _ _ =>
        (run_pipeline engine f).results_json = none ∧
        (run_pipeline engine f).summary_md ≠ "" ∧
        ∃ a, (run_pipeline engine f).summary_md = a ++ remediationText
    | .otherError _ _ =>
        (run_pipeline engine f).results_json = none ∧
        (run_pipeline engine f).summary_md ≠ "" := by
  unfold run_pipeline
  cases h : engine f with
  | success s r lg => simp
  | importError m =>
    have hsum : "**Import error:** " ++ m ++ "\n\n" ++ importGuidance ≠ "" :=
      append_ne_empty_left _ _ (append_ne_empty_left _ _
        (append_ne_empty_left "**Import error:** " m (by decide)))
    refine ⟨rfl, hsum, ?_⟩
    refine ⟨"**Import error:** " ++ m ++ "\n\n" ++
      "Could not import lam_qa_agent. Ensure the file exists alongside app.py.\nInstall required packages in your environment: \n  ", ?_⟩
    show "**Import error:** " ++ m ++ "\n\n" ++ importGuidance = _
    rw [show importGuidance =
      "Could not import lam_qa_agent. Ensure the file exists alongside app.py.\nInstall required packages in your environment: \n  "
        ++ remediationText from by decide]
    rw [← String.append_assoc]
  | moduleNotFound m lg =>
    have hsum : "**Dependency missing:** " ++ m ++ ".\n\n" ++ "Please install dependencies: \n" ++
        "  pip install anthropic playwright\n  python -m playwright install\n" ≠ "" :=
      append_ne_empty_left _ _ (append_ne_empty_left _ _ (append_ne_empty_left _ _
        (append_ne_empty_left "**Dependency missing:** " m (by decide))))
    refine ⟨rfl, hsum, ?_⟩
    refine ⟨"**Dependency missing:** " ++ m ++ ".\n\n" ++ "Please install dependencies: \n" ++ "  ", ?_⟩
    show "**Dependency missing:** " ++ m ++ ".\n\n" ++ "Please install dependencies: \n" ++
        "  pip install anthropic playwright\n  python -m playwright install\n" = _
    rw [show ("  pip install anthropic playwright\n  python -m playwright install\n" : String)
      = "  " ++ remediationText from by decide]
    rw [← String.append_assoc]
  | otherError m lg =>
    exact ⟨rfl, append_ne_empty_left _ _ (by decide)⟩

/-- C1 witness: concrete import-failure and generic-failure behaviours both
yield an absent raw result and a nonempty summary. -/
theorem c1_run_pipeline_failure_contract_witness :
    ((run_pipeline (fun _ => .importError "No module named lam_qa_agent")
        { url := "https://x", api_key := "k", num_tests := none, headless := true, prd_text := "p" }).results_json
      = none) ∧
    ((run_pipeline (fun _ => .otherError "boom" ["step 1"])
        { url := "https://x", api_key := "k", num_tests := none, headless := true, prd_text := "p" }).summary_md
      ≠ "") := by
  have h1 := c1_run_pipeline_failure_contract (fun _ => .importError "No module named lam_qa_agent")
    { url := "https://x", api_key := "k", num_tests := none, headless := true, prd_text := "p" }
  have h2 := c1_run_pipeline_failure_contract (fun _ => .otherError "boom" ["step 1"])
    { url := "https://x", api_key := "k", num_tests := none, headless := true, prd_text := "p" }
  exact ⟨h1.1, h2.2⟩

/-- C2: a POST whose body fails field parsing, or whose parsed fields fail
validation, is answered with status 400, does not invoke the pipeline, and
leaves the module-level ServerState unchanged. -/
theorem c2_post_invalid_leaves_state (engine : Engine) (st : ServerState) (qs : Query) :
    (∀ m, parse_fields qs = .error m →
      (do_POST engine st qs).state = st ∧
      (do_POST engine st qs).invoked = false ∧
      (do_POST engine st qs).resp.status = 400) ∧
    (∀ f, parse_fields qs = .ok f → validate_fields f ≠ [] →
      (do_POST engine st qs).state = st ∧
      (do_POST engine st qs).invoked = false ∧
      (do_POST engine st qs).resp.status = 400) := by
  constructor
  · intro m hm
    simp [do_POST, hm]
  · intro f hf hv
    simp [do_POST, hf, hv]

/-- C2 witness: a bad test count and a missing required field each produce a
400 response with the state untouched. -/
theorem c2_post_invalid_leaves_state_witness :
    ((do_POST (fun _ => .otherError "x" []) initialState
        [("url", ["u"]), ("api_key", ["k"]), ("prd_text", ["p"]), ("num_tests", ["zero"])]).state
      = initialState) ∧
    ((do_POST (fun _ => .otherError "x" []) initialState
        [("url", ["https://x"]), ("prd_text", ["p"])]).resp.status = 400) := by
  have h1 := (c2_post_invalid_leaves_state (fun _ => .otherError "x" []) initialState
    [("url", ["u"]), ("api_key", ["k"]), ("prd_text", ["p"]), ("num_tests", ["zero"])]).1
    numTestsErrMsg rfl
  have h2 := (c2_post_invalid_leaves_state (fun _ => .otherError "x" []) initialState
    [("url", ["https://x"]), ("prd_text", ["p"])]).2
    { url := "https://x", api_key := "", num_tests := none, headless := false, prd_text := "p" }
    rfl (by decide)
  exact ⟨h1.1, h2.2.2⟩

/-- C3: a POST that parses and validates successfully invokes the pipeline,
overwrites the ServerState with the RunOutcome, responds 200 regardless of
engine failure, and renders status label Completed exactly when the raw
result is present (else Completed with errors). -/
theorem c3_post_success_overwrites_state (engine : Engine) (st : ServerState) (qs : Query)
    (f : Fields) (hf : parse_fields qs = .ok f) (hv : validate_fields f = []) :
    (do_POST engine st qs).invoked = true ∧
    (do_POST engine st qs).resp.status = 200 ∧
    (do_POST engine st qs).state =
      { lastResultsJson := (run_pipeline engine f).results_json
        lastSummaryMd := some (run_pipeline engine f).summary_md
        lastLogs := (run_pipeline engine f).logs } ∧
    (∀ p, (do_POST engine st qs).resp.body = .page p →
      p.status = (if (run_pipeline engine f).results_json.isSome then "Completed" else "Completed with errors") ∧
      p.summary_md = some (run_pipeline engine f).summary_md ∧
      p.logs = (run_pipeline engine f).logs) := by
  have hne := run_pipeline_results_ne_some_empty engine f
  simp only [do_POST, hf, hv, ne_eq, not_true_eq_false, if_false]
  refine ⟨trivial, trivial, trivial, ?_⟩
  intro p hp
  cases hr : (run_pipeline engine f).results_json with
  | none =>
    rw [hr] at hp
    cases hp
    simp
  | some s =>
    have hs : s ≠ "" := fun h => hne (h ▸ hr)
    rw [hr] at hp
    simp [hs] at hp
    cases hp
    simp

/-- C3 witness: a valid POST against a failing engine still gets status 200
with label Completed with errors, and a succeeding engine gets Completed. -/
theorem c3_post_success_overwrites_state_witness :
    ((do_POST (fun _ => .importError "nope") initialState
        [("url", ["https://x"]), ("api_key", ["k"]), ("prd_text", ["p"])]).resp.status = 200) ∧
    ((do_POST (fun _ => .success "All passed" (.obj [("passed", .num 3)]) ["run"]) initialState
        [("url", ["https://x"]), ("api_key", ["k"]), ("prd_text", ["p"])]).invoked = true) := by
  have h1 := c3_post_success_overwrites_state (fun _ => .importError "nope") initialState
    [("url", ["https://x"]), ("api_key", ["k"]), ("prd_text", ["p"])]
    { url := "https://x", api_key := "k", num_tests := none, headless := false, prd_text := "p" }
    rfl (by decide)
  have h2 := c3_post_success_overwrites_state
    (fun _ => .success "All passed" (.obj [("passed", .num 3)]) ["run"]) initialState
    [("url", ["https://x"]), ("api_key", ["k"]), ("prd_text", ["p"])]
    { url := "https://x", api_key := "k", num_tests := none, headless := false, prd_text := "p" }
    rfl (by decide)
  exact ⟨h1.2.1, h2.1⟩

/-- Structural facts about every successfully parsed form: the headless flag
is the checkbox predicate from the source, and a present test count is
positive. -/
theorem parse_fields_ok_inv (qs : Query) (f : Fields) (hok : parse_fields qs = .ok f) :
    f.headless = (qsHas qs "headless" &&
      decide (qsFirst qs "headless" "on" ∈ (["on", "true", "1"] : List String))) ∧
    (∀ n : Int, f.num_tests = some n → 1 ≤ n) := by
  simp only [parse_fields] at hok
  split at hok
  · injection hok with h
    subst h
    exact ⟨rfl, fun n hn => Option.noConfusion hn⟩
  · split at hok
    · exact Except.noConfusion hok
    · split at hok
      · exact Except.noConfusion hok
      · injection hok with h
        subst h
        refine ⟨rfl, ?_⟩
        intro n hn
        injection hn with h2
        omega

/-- The headless flag of an env-built one-shot RunRequest, independent of the
test-count branch. -/
theorem oneShotFields_headless (env : Env) :
    (oneShotFields env).headless =
      decide (((env "APQA_HEADLESS").getD "1") ∈ (["1", "true", "on", "True"] : List String)) := by
  unfold oneShotFields
  by_cases h0 : pyStrip ((env "APQA_NUM_TESTS").getD "") = ""
  · rw [if_pos h0]
  · rw [if_neg h0]
    cases pythonInt (pyStrip ((env "APQA_NUM_TESTS").getD "")) <;> rfl

/-- C7 amended: a RunRequest built by `parse_fields` satisfies the
positivity invariant, but `run_once_from_env` only requires `APQA_NUM_TESTS`
to parse as an integer, so its RunRequest may carry any parseable integer
(including zero or a negative); absence still means run all. -/
theorem c7_invariant_amended :
    (∀ (qs : Query) (f : Fields) (n : Int),
      parse_fields qs = .ok f → f.num_tests = some n → 1 ≤ n) ∧
    (∀ (env : Env) (n : Int), (oneShotFields env).num_tests = some n →
      pythonInt (pyStrip ((env "APQA_NUM_TESTS").getD "")) = some n) ∧
    (∀ env : Env, pyStrip ((env "APQA_NUM_TESTS").getD "") = "" →
      (oneShotFields env).num_tests = none) := by
  refine ⟨?_, ?_, ?_⟩
  · intro qs f n hok hn
    exact (parse_fields_ok_inv qs f hok).2 n hn
  · intro env n hn
    unfold oneShotFields at hn
    by_cases h0 : pyStrip ((env "APQA_NUM_TESTS").getD "") = ""
    · rw [if_pos h0] at hn
      exact Option.noConfusion hn
    · rw [if_neg h0] at hn
      cases hp : pythonInt (pyStrip ((env "APQA_NUM_TESTS").getD "")) <;> rw [hp] at hn
      · exact Option.noConfusion hn
      · simpa using hn
  · intro env h0
    unfold oneShotFields
    rw [if_pos h0]

/-- C7 amended witness: the form parser accepts "5" (positive) while the
one-shot path accepts "-3" unchanged. -/
theorem c7_invariant_amended_witness :
    (1 : Int) ≤ 5 ∧
    pythonInt (pyStrip ((envC7 "APQA_NUM_TESTS").getD "")) = some (-3) := by
  refine ⟨?_, ?_⟩
  · exact c7_invariant_amended.1
      [("url", ["u"]), ("api_key", ["k"]), ("prd_text", ["p"]), ("num_tests", ["5"])]
      { url := "u", api_key := "k", num_tests := some 5, headless := false, prd_text := "p" }
      5 rfl rfl
  · exact c7_invariant_amended.2.1 envC7 (-3) (by decide)

/-- C6: the process exits 2 exactly when a one-shot run is attempted
(`APQA_RUN_ONCE=1`, outside test mode) with missing required fields; test
mode exits 0 or 1 by suite outcome; a valid one-shot run exits 0; the
listener-unsupported fallback exits 0. -/
theorem c6_exit_codes (engine : Engine) (env : Env) (bind : BindOutcome) :
    ((main engine env bind).outcome = .exited 2 ↔
      (env "RUN_TESTS" ≠ some "1" ∧ env "APQA_RUN_ONCE" = some "1" ∧
        validate_fields (oneShotFields env) ≠ [])) ∧
    (env "RUN_TESTS" = some "1" →
      (main engine env bind).outcome = .exited (if testsPass then 0 else 1)) ∧
    (env "RUN_TESTS" ≠ some "1" → env "APQA_RUN_ONCE" = some "1" →
      validate_fields (oneShotFields env) = [] →
      (main engine env bind).outcome = .exited 0) ∧
    (∀ e, env "RUN_TESTS" ≠ some "1" → env "APQA_RUN_ONCE" ≠ some "1" →
      bind = .err e → isUnsupported e = true →
      (main engine env bind).outcome = .exited 0) := by
  by_cases ht : env "RUN_TESTS" = some "1"
  · cases htp : testsPass <;> simp [main, ht, htp]
  · by_cases hro : env "APQA_RUN_ONCE" = some "1"
    · by_cases hval : validate_fields (oneShotFields env) = [] <;>
        simp [main, run_once_from_env, ht, hro, hval]
    · cases bind with
      | ok => simp [main, run_once_from_env, ht, hro]
      | err e => cases hu : isUnsupported e <;> simp [main, run_once_from_env, ht, hro, hu]

/-- C6 witness: a one-shot run with no fields configured exits 2; test mode
exits by suite outcome; a fully configured one-shot run exits 0; the
sandbox fallback exits 0. -/
theorem c6_exit_codes_witness :
    ((main (fun _ => .importError "x") (fun k => List.lookup k [("APQA_RUN_ONCE", "1")]) .ok).outcome
      = .exited 2) ∧
    ((main (fun _ => .importError "x") envC7 .ok).outcome = .exited 0) ∧
    ((main (fun _ => .importError "x") (fun _ => none)
        (.err { errno := some 138, msg := "Not supported" })).outcome = .exited 0) := by
  refine ⟨?_, ?_, ?_⟩
  · exact (c6_exit_codes (fun _ => .importError "x")
      (fun k => List.lookup k [("APQA_RUN_ONCE", "1")]) .ok).1.mpr
      ⟨by decide, rfl, by decide⟩
  · exact (c6_exit_codes (fun _ => .importError "x") envC7 .ok).2.2.1
      (by decide) rfl (by decide)
  · exact (c6_exit_codes (fun _ => .importError "x") (fun _ => none)
      (.err { errno := some 138, msg := "Not supported" })).2.2.2
      { errno := some 138, msg := "Not supported" } (by decide) (by decide) rfl (by decide)

/-- C8: when binding is attempted (no test mode, no one-shot configured) and
fails with an error classified as listener-unsupported, `main` writes the
static default page to the configured path and exits 0 instead of crashing;
any other bind failure propagates.  When a one-shot run is configured, it
executes (before any bind attempt) writing the report and, when a raw result
is present, the structured result to the configured paths, and exits 0. -/
theorem c8_listener_fallback (engine : Engine) (env : Env) (e : OSErr)
    (ht : env "RUN_TESTS" ≠ some "1") :
    (env "APQA_RUN_ONCE" ≠ some "1" → isUnsupported e = true →
      main engine env (.err e) =
        { outcome := .exited 0, staticUiWrite := some (uiOutPath env, staticUiPage),
          oneShot := none }) ∧
    (env "APQA_RUN_ONCE" ≠ some "1" → isUnsupported e = false →
      main engine env (.err e) =
        { outcome := .raised e, staticUiWrite := none, oneShot := none }) ∧
    (env "APQA_RUN_ONCE" = some "1" → validate_fields (oneShotFields env) = [] →
      ∃ tr, main engine env (.err e) =
          { outcome := .exited 0, staticUiWrite := none, oneShot := some tr } ∧
        tr.ran = true ∧
        tr.reportWrite = some (reportHtmlPath env,
          "<pre>" ++ htmlEscape (run_pipeline engine (oneShotFields env)).summary_md ++ "</pre>") ∧
        (∀ s, (run_pipeline engine (oneShotFields env)).results_json = some s →
          tr.resultsWrite = some (resultsJsonPath env, s))) := by
  refine ⟨?_, ?_, ?_⟩
  · intro hro hu
    simp [main, run_once_from_env, ht, hro, hu]
  · intro hro hu
    simp [main, run_once_from_env, ht, hro, hu]
  · intro hro hval
    refine ⟨{ fields := oneShotFields env
              ran := true
              reportWrite := some (reportHtmlPath env,
                "<pre>" ++ htmlEscape (run_pipeline engine (oneShotFields env)).summary_md ++ "</pre>")
              resultsWrite :=
                match (run_pipeline engine (oneShotFields env)).results_json with
                | none => none
                | some s => if s = "" then none else some (resultsJsonPath env, s) },
            ?_, rfl, rfl, ?_⟩
    · simp [main, run_once_from_env, ht, hro, hval]
    · intro s hs
      have hne := run_pipeline_results_ne_some_empty engine (oneShotFields env)
      have hs' : s ≠ "" := fun h => hne (h ▸ hs)
      simp [hs, hs']

/-- C8 witness: errno 138 triggers the static fallback with exit 0; a plain
permission error propagates; a configured one-shot run exits 0 writing its
report. -/
theorem c8_listener_fallback_witness :
    (main (fun _ => .importError "x") (fun _ => none)
        (.err { errno := some 138, msg := "OSError 138" }) =
      { outcome := .exited 0
        staticUiWrite := some ("/mnt/data/autopilot_qa_ui.html", staticUiPage)
        oneShot := none }) ∧
    (main (fun _ => .importError "x") (fun _ => none)
        (.err { errno := some 13, msg := "Permission denied" }) =
      { outcome := .raised { errno := some 13, msg := "Permission denied" }
        staticUiWrite := none, oneShot := none }) := by
  constructor
  · exact (c8_listener_fallback (fun _ => .importError "x") (fun _ => none)
      { errno := some 138, msg := "OSError 138" } (by decide)).1 (by decide) (by decide)
  · exact (c8_listener_fallback (fun _ => .importError "x") (fun _ => none)
      { errno := some 13, msg := "Permission denied" } (by decide)).2.1 (by decide) (by decide)

/-- The module-level results cache never holds an empty document in any
reachable state: it starts `None` and is only overwritten with pipeline
outcomes. -/
theorem reachable_results_ne_some_empty (st : ServerState) (h : Reachable st) :
    st.lastResultsJson ≠ some "" := by
  induction h with
  | init => simp [initialState]
  | post engine qs hst ih =>
    unfold do_POST
    cases hp : parse_fields qs with
    | error m => simpa using ih
    | ok f =>
      by_cases hv : validate_fields f = []
      · simp [hv]
        exact fun hc => run_pipeline_results_ne_some_empty engine f (by rw [hc])
      · simp [hv]
        exact ih

/-- C9: every GET whose path component is /results.json returns, with
status 200, the last stored raw result verbatim as a JSON document, or the
literal empty object when none has been stored yet. -/
theorem c9_results_endpoint (st : ServerState) (h : Reachable st) (target : String)
    (hp : urlPath target = "/results.json") :
    (st.lastResultsJson = none →
      do_GET st target = { status := 200, body := .json "\x7b\x7d" }) ∧
    (∀ s, st.lastResultsJson = some s →
      do_GET st target = { status := 200, body := .json s }) := by
  constructor
  · intro h0
    simp [do_GET, hp, resultsDoc, h0]
  · intro s hs
    have hne : s ≠ "" := fun he => reachable_results_ne_some_empty st h (he ▸ hs)
    simp [do_GET, hp, resultsDoc, hs, hne]

/-- Engine used in the C9 witness. -/
def engC9 : Engine := fun _ => .success "All passed" (.obj [("passed", .num 3)]) ["run"]

/-- Form body used in the C9 witness. -/
def qsOkC9 : Query := [("url", ["https://x"]), ("api_key", ["k"]), ("prd_text", ["p"])]

/-- C9 witness: before any POST the endpoint serves the empty object; after
a successful POST it serves the stored serialized result verbatim. -/
theorem c9_results_endpoint_witness :
    (do_GET initialState "/results.json" = { status := 200, body := .json "\x7b\x7d" }) ∧
    (do_GET (do_POST engC9 initialState qsOkC9).state "/results.json?download=1" =
      { status := 200, body := .json "\x7b\"passed\": 3\x7d" }) := by
  constructor
  · exact (c9_results_endpoint initialState .init "/results.json" (by decide)).1 rfl
  · exact (c9_results_endpoint (do_POST engC9 initialState qsOkC9).state
      (.post engC9 qsOkC9 .init) "/results.json?download=1" (by decide)).2
      "\x7b\"passed\": 3\x7d" (by decide)

/-- C10: in one-shot mode the headless flag defaults to true when
`APQA_HEADLESS` is absent and its truthy set is (1, true, on, True), while
the form checkbox is false when absent and its truthy set is the first value
being one of (on, true, 1). -/
theorem c10_headless_defaults :
    (∀ env : Env, env "APQA_HEADLESS" = none → (oneShotFields env).headless = true) ∧
    (∀ (env : Env) (v : String), env "APQA_HEADLESS" = some v →
      ((oneShotFields env).headless = true ↔ (v = "1" ∨ v = "true" ∨ v = "on" ∨ v = "True"))) ∧
    (∀ (qs : Query) (f : Fields), parse_fields qs = .ok f → qs.lookup "headless" = none →
      f.headless = false) ∧
    (∀ (qs : Query) (f : Fields) (vs : List String) (v : String),
      parse_fields qs = .ok f → qs.lookup "headless" = some vs → vs.head? = some v →
      (f.headless = true ↔ (v = "on" ∨ v = "true" ∨ v = "1"))) := by
  refine ⟨?_, ?_, ?_, ?_⟩
  · intro env h
    rw [oneShotFields_headless, h]
    decide
  · intro env v h
    rw [oneShotFields_headless, h]
    simp
  · intro qs f hok hl
    rw [(parse_fields_ok_inv qs f hok).1]
    simp [qsHas, hl]
  · intro qs f vs v hok hl hv
    rw [(parse_fields_ok_inv qs f hok).1]
    simp [qsHas, qsFirst, hl, hv]

/-- C10 witness: with no `APQA_HEADLESS` in the environment the one-shot run
is headless, and a form submission without the checkbox key is not. -/
theorem c10_headless_defaults_witness :
    ((oneShotFields (fun _ => none)).headless = true) ∧
    (({ url := "https://x", api_key := "k", num_tests := none, headless := false,
        prd_text := "p" } : Fields).headless = false) := by
  exact ⟨c10_headless_defaults.1 (fun _ => none) rfl,
         c10_headless_defaults.2.2.1 qsOkC9
           { url := "https://x", api_key := "k", num_tests := none, headless := false,
             prd_text := "p" } rfl rfl⟩

end AutoPilotQA
